import Mathlib

/-!
Verification of the C data-structures library (BST, AVL, skip list, hash map)
against its natural-language specification.

The C code is shallowly embedded: heap nodes live in an arena (a list indexed
by allocation order), pointers are Option Nat (none models NULL), and machine
size_t arithmetic is Nat taken modulo 2 to the 64 (the code targets a 64-bit
platform).  Every operation that can dereference NULL, call an uninitialized
function pointer, or run a loop whose termination is not guaranteed returns an
Option: none models undefined behavior or divergence, some r models a normal
return with C result r.  The element comparator used throughout the claims is
the standard integer comparator that dereferences both arguments, so applying
it to a NULL pointer is undefined behavior.
-/

namespace CDS

/-- Modulus of size_t arithmetic on the 64-bit target. -/
def SIZE_MOD : Nat := 2 ^ 64

/-- The integer three-way comparator over int pointers,
the comparator every claim scenario supplies:
it dereferences both arguments and returns their difference, so a NULL
argument (none) yields undefined behavior (none).  Result magnitudes in the
claims are far below int overflow, which is therefore not modelled. -/
def intCompare (a b : Option Int) : Option Int :=
  match a, b with
  | some x, some y => some (x - y)
  | _, _ => none

/-! ## binarynode (binarynode.c): arena of binary tree nodes -/

/-- One binarynode: the stored int value (the malloc-ed value buffer)
and the three structural links of the C struct. -/
structure binarynode where
  ptr : Int
  father : Option Nat
  left : Option Nat
  right : Option Nat
deriving DecidableEq

/-- The node arena: slot i holds the node allocated i-th; none is a freed slot. -/
abbrev BHeap := List (Option binarynode)

/-- Dereference a binarynode pointer: none for NULL or a freed slot. -/
def heapGet (h : BHeap) (r : Option Nat) : Option binarynode :=
  match r with
  | none => none
  | some i => h.getD i none

/-- Update the node in slot i (no-op if the slot is NULL or freed). -/
def heapSet (h : BHeap) (i : Nat) (f : binarynode → binarynode) : BHeap :=
  match h.getD i none with
  | none => h
  | some nd => h.set i (some (f nd))

/-- binarynode_get_value: bn ? bn->ptr : NULL. -/
def binarynode_get_value (h : BHeap) (r : Option Nat) : Option Int :=
  (heapGet h r).map (fun nd => nd.ptr)

/-- binarynode_get_father: bn ? bn->father : NULL. -/
def binarynode_get_father (h : BHeap) (r : Option Nat) : Option Nat :=
  (heapGet h r).bind (fun nd => nd.father)

/-- binarynode_get_left_child: bn ? bn->left : NULL. -/
def binarynode_get_left_child (h : BHeap) (r : Option Nat) : Option Nat :=
  (heapGet h r).bind (fun nd => nd.left)

/-- binarynode_get_right_child: bn ? bn->right : NULL. -/
def binarynode_get_right_child (h : BHeap) (r : Option Nat) : Option Nat :=
  (heapGet h r).bind (fun nd => nd.right)

/-- binarynode_set_father: if (bn) bn->father = father. -/
def binarynode_set_father (h : BHeap) (r : Option Nat) (father : Option Nat) : BHeap :=
  match r with
  | none => h
  | some i => heapSet h i (fun nd => { nd with father := father })

/-- binarynode_set_left_child: if (bn) bn->left = left. -/
def binarynode_set_left_child (h : BHeap) (r : Option Nat) (left : Option Nat) : BHeap :=
  match r with
  | none => h
  | some i => heapSet h i (fun nd => { nd with left := left })

/-- binarynode_set_right_child: if (bn) bn->right = right. -/
def binarynode_set_right_child (h : BHeap) (r : Option Nat) (right : Option Nat) : BHeap :=
  match r with
  | none => h
  | some i => heapSet h i (fun nd => { nd with right := right })

/-- binarynode_get_height: bn ? 1 + max(height(left), height(right)) : 0.
The fuel bounds the recursion depth; none models the C recursion failing to
terminate on a cyclic heap. -/
def binarynode_get_height (h : BHeap) : Nat → Option Nat → Option Nat
  | 0, _ => none
  | fuel + 1, r =>
    match heapGet h r with
    | none => some 0
    | some nd => do
      let hl ← binarynode_get_height h fuel nd.left
      let hr ← binarynode_get_height h fuel nd.right
      some (1 + max hl hr)

/-- binarynode_get_balance: bn ? height(bn->left) - height(bn->right) : 0. -/
def binarynode_get_balance (h : BHeap) (fuel : Nat) (r : Option Nat) : Option Int :=
  match heapGet h r with
  | none => some 0
  | some nd => do
    let hl ← binarynode_get_height h fuel nd.left
    let hr ← binarynode_get_height h fuel nd.right
    some ((hl : Int) - (hr : Int))

/-! ## BST (BST.c) -/

/-- The BST struct: root pointer and element size.  The compare field always
holds the integer comparator in the claim scenarios and is modelled by the
fixed intCompare. -/
structure BST where
  root : Option Nat
  element_size : Nat
deriving DecidableEq

/-- BST_create: NULL unless 0 < element_size and a comparator is supplied
(the integer comparator is supplied in every scenario). -/
def BST_create (element_size : Nat) : Option BST :=
  if 0 < element_size then some ⟨none, element_size⟩ else none

/-- The descend loop of BST_insert:
while (tmp): n_father = tmp; tmp = compare(x, value(tmp)) < 0 ? left : right.
Returns the final n_father; none models a diverging loop (fuel exhausted). -/
def insertDescend (h : BHeap) (x : Int) : Nat → Option Nat → Option Nat → Option (Option Nat)
  | 0, _, _ => none
  | fuel + 1, tmp, nf =>
    match tmp with
    | none => some nf
    | some i =>
      match h.getD i none with
      | none => none
      | some nd =>
        match intCompare (some x) (some nd.ptr) with
        | none => none
        | some d => insertDescend h x fuel (if d < 0 then nd.left else nd.right) (some i)

/-- BST_insert.  A fresh node is allocated; on an empty tree it becomes the
root.  Otherwise the code descends to a NULL slot and then branches on
compare(x, binarynode_get_value(tmp)) where tmp is the NULL pointer the loop
ended on, so the integer comparator dereferences NULL: undefined behavior.
Returns (heap, bst, pointer to the new node). -/
def BST_insert (fuel : Nat) (h : BHeap) (bst : BST) (x : Int) : Option (BHeap × BST × Option Nat) :=
  if 0 < bst.element_size then
    let nRef := h.length
    let h1 := h ++ [some ⟨x, none, none, none⟩]
    match bst.root with
    | none => some (h1, { bst with root := some nRef }, some nRef)
    | some _ => do
      let n_father ← insertDescend h1 x fuel bst.root none
      let d ← intCompare (some x) (binarynode_get_value h1 none)
      let h2 := binarynode_set_father h1 (some nRef) n_father
      if d < 0 then some (binarynode_set_left_child h2 n_father (some nRef), bst, some nRef)
      else some (binarynode_set_right_child h2 n_father (some nRef), bst, some nRef)
  else some (h, bst, none)

/-- The search loop inside BST_search: descend comparing x with each value,
stopping on equality.  Returns the final value of the loop variable. -/
def BST_search_loop (h : BHeap) (x : Int) : Nat → Option Nat → Option (Option Nat)
  | 0, _ => none
  | fuel + 1, n =>
    match n with
    | none => some none
    | some i =>
      match h.getD i none with
      | none => none
      | some nd =>
        match intCompare (some x) (some nd.ptr) with
        | none => none
        | some diff =>
          if diff = 0 then some (some i)
          else if diff < 0 then BST_search_loop h x fuel nd.left
          else BST_search_loop h x fuel nd.right

/-- BST_search.  The C function declares an outer result variable n = NULL and
then, inside the if(bst) block, declares a NEW variable n that shadows it; the
loop works on the inner n, whose final value is discarded, and the function
returns the outer n, which is still NULL. -/
def BST_search (fuel : Nat) (h : BHeap) (bst : BST) (x : Int) : Option (Option Nat) := do
  let _inner ← BST_search_loop h x fuel bst.root
  some none

/-- BST_contains: (bst && x) ? BST_search(bst, x) : false, with the returned
pointer converted to bool. -/
def BST_contains (fuel : Nat) (h : BHeap) (bst : BST) (x : Int) : Option Bool :=
  (BST_search fuel h bst x).map Option.isSome

/-- The left-spine walk shared by BST_min and by the dead loop in
BST_successor: while (get_left_child(tmp)) tmp = get_left_child(tmp). -/
def minLoop (h : BHeap) : Nat → Option Nat → Option (Option Nat)
  | 0, _ => none
  | fuel + 1, tmp =>
    match binarynode_get_left_child h tmp with
    | none => some tmp
    | some l => minLoop h fuel (some l)

/-- The right-spine walk shared by BST_max and by the dead loop in
BST_predecessor: while (get_right_child(tmp)) tmp = get_right_child(tmp). -/
def maxLoop (h : BHeap) : Nat → Option Nat → Option (Option Nat)
  | 0, _ => none
  | fuel + 1, tmp =>
    match binarynode_get_right_child h tmp with
    | none => some tmp
    | some r => maxLoop h fuel (some r)

/-- BST_min: walk the left spine from the root and return the value of the
final node; on an empty tree the loop body never runs and
binarynode_get_value(NULL) = NULL is returned. -/
def BST_min (fuel : Nat) (h : BHeap) (bst : BST) : Option (Option Int) :=
  (minLoop h fuel bst.root).map (fun tmp => binarynode_get_value h tmp)

/-- BST_max: mirror image of BST_min on the right spine. -/
def BST_max (fuel : Nat) (h : BHeap) (bst : BST) : Option (Option Int) :=
  (maxLoop h fuel bst.root).map (fun tmp => binarynode_get_value h tmp)

/-- The upward walk of BST_successor:
while (father && bn == get_right_child(father)) climb; return father. -/
def succClimbLoop (h : BHeap) : Nat → Option Nat → Option Nat → Option (Option Nat)
  | 0, _, _ => none
  | fuel + 1, bn, father =>
    match father with
    | none => some none
    | some f =>
      if binarynode_get_right_child h (some f) = bn then
        succClimbLoop h fuel (some f) (binarynode_get_father h (some f))
      else some (some f)

/-- The upward walk of BST_predecessor:
while (father && bn == get_left_child(father)) climb; return father. -/
def predClimbLoop (h : BHeap) : Nat → Option Nat → Option Nat → Option (Option Nat)
  | 0, _, _ => none
  | fuel + 1, bn, father =>
    match father with
    | none => some none
    | some f =>
      if binarynode_get_left_child h (some f) = bn then
        predClimbLoop h fuel (some f) (binarynode_get_father h (some f))
      else some (some f)

/-- BST_successor.  When bn has a right child the C code stores that child in
tmp, then runs a loop that advances bn (not tmp) down the left spine, and
returns tmp: the plain right child.  Otherwise it climbs father links. -/
def BST_successor (fuel : Nat) (h : BHeap) (bst : BST) (bn : Option Nat) : Option (Option Nat) :=
  match bst.root, bn with
  | _, none => some none
  | _, some i =>
    match binarynode_get_right_child h (some i) with
    | some t => (minLoop h fuel (some i)).map (fun _ => some t)
    | none => succClimbLoop h fuel (some i) (binarynode_get_father h (some i))

/-- BST_predecessor.  Mirror of BST_successor: with a left child present it
returns that plain left child (the loop advances bn, not tmp); otherwise it
climbs father links. -/
def BST_predecessor (fuel : Nat) (h : BHeap) (bst : BST) (bn : Option Nat) : Option (Option Nat) :=
  match bst.root, bn with
  | _, none => some none
  | _, some i =>
    match binarynode_get_left_child h (some i) with
    | some t => (maxLoop h fuel (some i)).map (fun _ => some t)
    | none => predClimbLoop h fuel (some i) (binarynode_get_father h (some i))

/-- Driver: fold BST_insert over a list of values, threading heap and tree and
discarding the returned node pointers (models a test that inserts a sequence). -/
def BST_insertSeq (fuel : Nat) : Option (BHeap × BST) → List Int → Option (BHeap × BST)
  | st, [] => st
  | st, x :: xs =>
    BST_insertSeq fuel (st.bind (fun s => (BST_insert fuel s.1 s.2 x).map (fun r => (r.1, r.2.1)))) xs

/-! ## AVL (AVL.c) -/

/-- The AVL struct: a wrapper holding the underlying BST. -/
structure AVL where
  tree : BST
deriving DecidableEq

/-- AVL_create: allocate the wrapper and the underlying BST. -/
def AVL_create (element_size : Nat) : Option AVL :=
  (BST_create element_size).map (fun b => ⟨b⟩)

/-- AVL_util_right_rotation around z: y = left(z) becomes the subtree root,
its former right child t becomes the left child of z; the father pointers of
t, y and z are rewritten in the order the C statements execute.  Returns the
updated heap and y. -/
def AVL_util_right_rotation (h : BHeap) (z : Option Nat) : BHeap × Option Nat :=
  let y := binarynode_get_left_child h z
  let t := binarynode_get_right_child h y
  let h1 := binarynode_set_right_child h y z
  let h2 := binarynode_set_left_child h1 z t
  let h3 := binarynode_set_father h2 t z
  let h4 := binarynode_set_father h3 y (binarynode_get_father h3 z)
  let h5 := binarynode_set_father h4 z y
  (h5, y)

/-- AVL_util_left_rotation around x: mirror image of the right rotation. -/
def AVL_util_left_rotation (h : BHeap) (x : Option Nat) : BHeap × Option Nat :=
  let y := binarynode_get_right_child h x
  let t := binarynode_get_left_child h y
  let h1 := binarynode_set_left_child h y x
  let h2 := binarynode_set_right_child h1 x t
  let h3 := binarynode_set_father h2 t x
  let h4 := binarynode_set_father h3 y (binarynode_get_father h3 x)
  let h5 := binarynode_set_father h4 x y
  (h5, y)

/-- The rebalancing walk of AVL_insert and AVL_remove: from n up to the root,
compute the balance, rotate as the LL/LR/RR/RL case dictates (the rotation
result is assigned to the local n only; no child pointer of the father and no
tree root is ever updated with it), then continue at the father of n.
The comparator calls use the inserted or removed value x.  Heights are
computed with recursion depth bounded by the heap size. -/
def AVL_rebalance (h : BHeap) (x : Int) : Nat → Option Nat → Option BHeap
  | 0, _ => none
  | fuel + 1, n =>
    match n with
    | none => some h
    | some nr => do
      let balance ← binarynode_get_balance h (h.length + 1) (some nr)
      if balance > 1 then do
        let d ← intCompare (some x) (binarynode_get_value h (binarynode_get_left_child h (some nr)))
        if d < 0 then
          let hy := AVL_util_right_rotation h (some nr)
          AVL_rebalance hy.1 x fuel (binarynode_get_father hy.1 hy.2)
        else
          let inner := AVL_util_left_rotation h (binarynode_get_left_child h (some nr))
          let h2 := binarynode_set_left_child inner.1 (some nr) inner.2
          let hy := AVL_util_right_rotation h2 (some nr)
          AVL_rebalance hy.1 x fuel (binarynode_get_father hy.1 hy.2)
      else if balance < -1 then do
        let d ← intCompare (some x) (binarynode_get_value h (binarynode_get_right_child h (some nr)))
        if d > 0 then
          let hy := AVL_util_left_rotation h (some nr)
          AVL_rebalance hy.1 x fuel (binarynode_get_father hy.1 hy.2)
        else
          let inner := AVL_util_right_rotation h (binarynode_get_right_child h (some nr))
          let h2 := binarynode_set_right_child inner.1 (some nr) inner.2
          let hy := AVL_util_left_rotation h2 (some nr)
          AVL_rebalance hy.1 x fuel (binarynode_get_father hy.1 hy.2)
      else AVL_rebalance h x fuel (binarynode_get_father h (some nr))

/-- AVL_insert: delegate to BST_insert, take the father of the new node, and
run the rebalancing walk from there.  The AVL struct (hence the BST root) is
returned exactly as BST_insert left it: the walk never reattaches anything. -/
def AVL_insert (fuel : Nat) (h : BHeap) (avl : AVL) (x : Int) : Option (BHeap × AVL) := do
  let r ← BST_insert fuel h avl.tree x
  let n := binarynode_get_father r.1 r.2.2
  let h2 ← AVL_rebalance r.1 x fuel n
  some (h2, ⟨r.2.1⟩)

/-- Driver: fold AVL_insert over a list of values. -/
def AVL_insertSeq (fuel : Nat) : Option (BHeap × AVL) → List Int → Option (BHeap × AVL)
  | st, [] => st
  | st, x :: xs => AVL_insertSeq fuel (st.bind (fun s => AVL_insert fuel s.1 s.2 x)) xs

/-! ## snode (snode.c) and skiplist (skiplist.c) -/

/-- One skip-list node: the stored int value, the array of forward pointers
(one per level) and the stored level count. -/
structure snode where
  ptr : Int
  forward : List (Option Nat)
  level : Nat
deriving DecidableEq

/-- The snode arena; none is a freed slot. -/
abbrev SHp := List (Option snode)

/-- Dereference an snode pointer: none for NULL or a freed slot. -/
def sheapGet (h : SHp) (r : Option Nat) : Option snode :=
  match r with
  | none => none
  | some i => h.getD i none

/-- snode_create: NULL unless 0 < value_size and 0 < level; the node gets
level forward pointers, all NULL. -/
def snode_create (x : Int) (value_size level : Nat) : Option snode :=
  if 0 < value_size ∧ 0 < level then some ⟨x, List.replicate level none, level⟩ else none

/-- snode_delete: free the node slot and set the owning local pointer NULL. -/
def snode_delete (h : SHp) (r : Option Nat) : SHp × Option Nat :=
  match r with
  | none => (h, none)
  | some i => (h.set i none, none)

/-- snode_get_value: sn ? sn->ptr : NULL. -/
def snode_get_value (h : SHp) (r : Option Nat) : Option Int :=
  (sheapGet h r).map (fun nd => nd.ptr)

/-- snode_get_next: level < sn->level ? sn->forward[level] : NULL.
The C function dereferences sn without a NULL check, so a NULL or freed
pointer is undefined behavior (outer none). -/
def snode_get_next (h : SHp) (r : Option Nat) (level : Nat) : Option (Option Nat) :=
  match sheapGet h r with
  | none => none
  | some sn => some (if level < sn.level then sn.forward.getD level none else none)

/-- snode_set_next: if (level < sn->level) sn->forward[level] = next; the
bounds check silently drops out-of-range writes.  Dereferencing a NULL or
freed sn is undefined behavior (none). -/
def snode_set_next (h : SHp) (r : Option Nat) (next : Option Nat) (level : Nat) : Option SHp :=
  match r with
  | none => none
  | some i =>
    match h.getD i none with
    | none => none
    | some sn =>
      some (h.set i (some (if level < sn.level then { sn with forward := sn.forward.set level next } else sn)))

/-- The skiplist struct: sentinel pointer, element count (a size_t), element
size, current maximum level count and the promotion probability.  The
comparator is the integer comparator, modelled by intCompare. -/
structure skiplist where
  sentinel : Option Nat
  element_count : Nat
  element_size : Nat
  max_levels : Nat
  probability : Rat
deriving DecidableEq

/-- sl_create: checks the construction parameters, then allocates a sentinel
node holding a zeroed value with max_levels forward pointers. -/
def sl_create (h : SHp) (element_size max_levels : Nat) (probability : Rat) : Option (SHp × skiplist) :=
  if 0 < element_size ∧ 0 < max_levels ∧ 0 < probability ∧ probability < 1 then
    match snode_create 0 element_size max_levels with
    | none => none
    | some sn => some (h ++ [some sn], ⟨some h.length, 0, element_size, max_levels, probability⟩)
  else none

/-- The loop of sl_generate_random_level: level = 1, then while the coin flip
succeeds and level < max_levels, level increments.  rand() outcomes are
modelled as the explicit stream of comparison results flips. -/
def sl_level_loop : List Bool → Nat → Nat → Nat
  | [], level, _ => level
  | f :: rest, level, max_levels =>
    if f ∧ level < max_levels then sl_level_loop rest (level + 1) max_levels else level

/-- sl_generate_random_level with the randomness supplied as flips. -/
def sl_generate_random_level (flips : List Bool) (max_levels : Nat) : Nat :=
  sl_level_loop flips 1 max_levels

/-- The forward scan at one level, shared by sl_insert, sl_remove and
sl_search: while (snode_get_next(tmp, lvl) && compare(value(next), x) < 0)
advance tmp. -/
def sl_advance (h : SHp) (x : Int) (lvl : Nat) : Nat → Option Nat → Option (Option Nat)
  | 0, _ => none
  | fuel + 1, tmp => do
    let nxt ← snode_get_next h tmp lvl
    match nxt with
    | none => some tmp
    | some nref => do
      let d ← intCompare (snode_get_value h (some nref)) (some x)
      if d < 0 then sl_advance h x lvl fuel (some nref) else some tmp

/-- The update-array construction of sl_insert and sl_remove: for i from
max_levels down to 1, advance at level i-1 and record update[i-1] = tmp.
Returns (update, final tmp); the accumulator is prepended so that the list
index equals the level index. -/
def sl_buildUpdate (h : SHp) (x : Int) (fuel : Nat) : Nat → Option Nat → List (Option Nat) → Option (List (Option Nat) × Option Nat)
  | 0, tmp, acc => some (acc, tmp)
  | i + 1, tmp, acc => do
    let tmp2 ← sl_advance h x i fuel tmp
    sl_buildUpdate h x fuel i tmp2 (tmp2 :: acc)

/-- The splice loop of sl_insert, for i in [0, node_level):
snode_set_next(new, snode_get_next(update[i], i), node_level) — note the last
argument is node_level, not i, which snode_set_next silently drops as out of
range — then snode_set_next(update[i], new, i). -/
def sl_spliceLoop (nRef node_level : Nat) (update : List (Option Nat)) : Nat → Nat → SHp → Option SHp
  | 0, _, h => some h
  | r + 1, i, h => do
    let nxt ← snode_get_next h (update.getD i none) i
    let h1 ← snode_set_next h (some nRef) nxt node_level
    let h2 ← snode_set_next h1 (update.getD i none) (some nRef) i
    sl_spliceLoop nRef node_level update r (i + 1) h2

/-- sl_insert: build update[], draw the node level, create the node, splice it
in, and increment element_count (which happens even if node creation failed);
finally max_levels is raised to node_level if larger (never, as the draw is
capped at max_levels). -/
def sl_insert (h : SHp) (sl : skiplist) (x : Int) (flips : List Bool) (fuel : Nat) : Option (SHp × skiplist) := do
  let bu ← sl_buildUpdate h x fuel sl.max_levels sl.sentinel []
  let node_level := sl_generate_random_level flips sl.max_levels
  let stepped ←
    match snode_create x sl.element_size node_level with
    | none => some h
    | some nd => sl_spliceLoop h.length node_level bu.1 node_level 0 (h ++ [some nd])
  some (stepped,
    { sl with
      element_count := (sl.element_count + 1) % SIZE_MOD,
      max_levels := if node_level > sl.max_levels then node_level else sl.max_levels })

/-- The shrink loop inside sl_remove:
while (max_levels > 1 && !snode_get_next(sentinel, max_levels - 1)) max_levels
decrements.  Recursion is on max_levels itself. -/
def sl_shrinkLoop (h : SHp) (sent : Option Nat) : Nat → Option Nat
  | 0 => some 0
  | 1 => some 1
  | ml + 2 => do
    let nxt ← snode_get_next h sent (ml + 1)
    if nxt = none then sl_shrinkLoop h sent (ml + 1) else some (ml + 2)

/-- The unlink loop of sl_remove, for i while i < max_levels (re-read after
the shrink loop runs): break unless update[i] still points at the matched
node; rewire update[i], free the node (the local pointer becomes NULL, so the
next iteration dereferences NULL in snode_get_next: undefined behavior when
the node had more than one level and the chain continues), then shrink
max_levels.  Returns (heap, new max_levels). -/
def sl_unlinkLoop (update : List (Option Nat)) (sent : Option Nat) : Nat → Nat → Option Nat → Nat → SHp → Option (SHp × Nat)
  | 0, _, _, _, _ => none
  | fuel + 1, i, tbd, ml, h =>
    if i < ml then do
      let nxt ← snode_get_next h (update.getD i none) i
      if nxt = tbd then do
        let fwd ← snode_get_next h tbd i
        let h1 ← snode_set_next h (update.getD i none) fwd i
        let freed := snode_delete h1 tbd
        let ml2 ← sl_shrinkLoop freed.1 sent ml
        sl_unlinkLoop update sent fuel (i + 1) freed.2 ml2 freed.1
      else some (h, ml)
    else some (h, ml)

/-- sl_remove: build update[], take the level-0 candidate, unlink it if it
compares equal, and decrement element_count unconditionally (size_t
arithmetic, so an absent value still shrinks the count, and an empty list
wraps around). -/
def sl_remove (h : SHp) (sl : skiplist) (x : Int) (fuel : Nat) : Option (SHp × skiplist) := do
  let bu ← sl_buildUpdate h x fuel sl.max_levels sl.sentinel []
  let tbd ← snode_get_next h bu.2 0
  match tbd with
  | none =>
    some (h, { sl with element_count := (sl.element_count + (SIZE_MOD - 1)) % SIZE_MOD })
  | some t => do
    let d ← intCompare (snode_get_value h (some t)) (some x)
    if d = 0 then do
      let res ← sl_unlinkLoop bu.1 sl.sentinel (sl.max_levels + 1) 0 (some t) sl.max_levels h
      some (res.1,
        { sl with
          element_count := (sl.element_count + (SIZE_MOD - 1)) % SIZE_MOD,
          max_levels := res.2 })
    else
      some (h, { sl with element_count := (sl.element_count + (SIZE_MOD - 1)) % SIZE_MOD })

/-- The for loop of sl_search: for (size_t i = max_levels; i > 0; i++) — the
index increments instead of decrementing, so i runs from max_levels up to
SIZE_MOD - 1, wraps to 0 and only then exits; every iteration advances at
level i, which is at or above every node level, so the scan never moves. -/
def sl_searchFor (h : SHp) (x : Int) (fi : Nat) : Nat → Option Nat → Nat → Option (Option Nat)
  | 0, _, _ => none
  | fuel + 1, toRet, i =>
    if i = 0 then some toRet
    else do
      let r ← sl_advance h x i fi toRet
      sl_searchFor h x fi fuel r ((i + 1) % SIZE_MOD)

/-- sl_search: run the (broken, effectively dead) for loop from the sentinel,
then step to the level-0 successor and return it if it compares equal to x. -/
def sl_search (h : SHp) (sl : skiplist) (x : Int) (fuel : Nat) : Option (Option Nat) := do
  let r ← sl_searchFor h x fuel SIZE_MOD sl.sentinel sl.max_levels
  let toRet ← snode_get_next h r 0
  match toRet with
  | none => some none
  | some t => do
    let d ← intCompare (snode_get_value h (some t)) (some x)
    some (if d = 0 then some t else none)

/-- sl_contains: (sl && x) ? sl_search(sl, x) : false, pointer converted to
bool. -/
def sl_contains (h : SHp) (sl : skiplist) (x : Int) (fuel : Nat) : Option Bool :=
  (sl_search h sl x fuel).map Option.isSome

/-- sl_get_size: sl ? sl->element_count : 0. -/
def sl_get_size (sl : skiplist) : Nat :=
  sl.element_count

/-! ## bitset (bitset.c), vector (vector.c) and hashmap (hashmap.c) -/

/-- bitset_get: in-range bits are read, everything else is false. -/
def bitset_get (b : List Bool) (i : Nat) : Bool :=
  b.getD i false

/-- bitset_set: set bit i; the C guard i < set_size matches List.set being a
no-op out of range. -/
def bitset_set (b : List Bool) (i : Nat) : List Bool :=
  b.set i true

/-- bitset_count: number of set bits. -/
def bitset_count (b : List Bool) : Nat :=
  b.count true

/-- bitset_get_size: the size the set was created with. -/
def bitset_get_size (b : List Bool) : Nat :=
  b.length

/-- vec_insert_at: overwrite slot i (the C memcpy has no bounds check, but
every call here probes below the capacity). -/
def vec_insert_at (v : List (Option (String × Int))) (x : Option (String × Int)) (i : Nat) : List (Option (String × Int)) :=
  v.set i x

/-- The hashmap struct: the backing vector of (key, value) couples (none is a
zeroed slot no couple was written to), the occupancy bitset, the primary hash
function field and the second hash function field.  The second field is an
Option because hash_create mallocs the struct and never assigns second_hash,
so calling it is undefined behavior (none). -/
structure hashmap where
  values : List (Option (String × Int))
  occupied : List Bool
  hash_func : String → Nat
  second_hash : Option (String → Nat)

/-- hash_util_default_hash: the djb2-style hash, hash = hash * 33 + c seeded
at 5381, in size_t arithmetic. -/
def hash_util_default_hash (key : String) : Nat :=
  key.data.foldl (fun h c => (h * 33 + c.toNat) % SIZE_MOD) 5381

/-- hash_util_default_second_hash: the body folds hash = (hash xor c) * 33
over the key seeded at 1431655765, but the final statement is return 0, so
the computed value is discarded and every key hashes to 0. -/
def hash_util_default_second_hash (key : String) : Nat :=
  let _hash := key.data.foldl (fun h c => ((h ^^^ c.toNat) * 33) % SIZE_MOD) 1431655765
  0

/-- hash_get_capacity: vec_get_size of the backing vector. -/
def hash_get_capacity (hm : hashmap) : Nat :=
  hm.values.length

/-- hash_create: after the parameter checks it allocates the vector and the
bitset, then assigns hash_func twice in a row —
first hash_util_default_hash, then hash_util_default_second_hash — and never
assigns second_hash, which keeps its uninitialized malloc content. -/
def hash_create (capacity element_size : Nat) : Option hashmap :=
  if 0 < capacity ∧ 0 < element_size ∧ capacity ≤ (SIZE_MOD - 1) / element_size then
    some { values := List.replicate capacity none,
           occupied := List.replicate capacity false,
           hash_func := hash_util_default_second_hash,
           second_hash := none }
  else none

/-- hash_set_function: if (hash && map) hash->hash_func = map. -/
def hash_set_function (hm : hashmap) (map : String → Nat) : hashmap :=
  { hm with hash_func := map }

/-- hash_set_second_function: the C body assigns hash->hash_func = map2, not
hash->second_hash, so the second hash can never actually be installed. -/
def hash_set_second_function (hm : hashmap) (map2 : String → Nat) : hashmap :=
  { hm with hash_func := map2 }

/-- The probe loop of hash_put: up to capacity probes; on the first
unoccupied index the couple is written at index but the occupied bit is set
at the loop counter i, as the C passes i to bitset_set. -/
def hash_put_loop (hm : hashmap) (key : String) (value : Int) (step cap : Nat) : Nat → Nat → Nat → Option hashmap
  | _, _, 0 => some hm
  | index, i, r + 1 =>
    if bitset_get hm.occupied index = false then
      some { hm with
             values := vec_insert_at hm.values (some (key, value)) index,
             occupied := bitset_set hm.occupied i }
    else hash_put_loop hm key value step cap ((index + step) % cap) (i + 1) r

/-- hash_put: only when the table is not full; the starting index comes from
hash_func, then the stride comes from calling the uninitialized second_hash
field — undefined behavior for every map hash_create returns. -/
def hash_put (hm : hashmap) (key : String) (value : Int) : Option hashmap :=
  if bitset_count hm.occupied < bitset_get_size hm.occupied then
    let index := hm.hash_func key % hash_get_capacity hm
    match hm.second_hash with
    | none => none
    | some h2 =>
      hash_put_loop hm key value (h2 key) (hash_get_capacity hm) index 0 (hash_get_capacity hm)
  else some hm

/-- The probe loop of hash_get: at each occupied slot compare the stored key
with the query by strncmp over strlen(key) characters; advance by step
otherwise, for at most capacity probes.  Reading a slot whose couple was
never written despite its occupied bit is reading garbage (none). -/
def hash_get_loop (hm : hashmap) (key : String) (step cap : Nat) : Nat → Nat → Option (Option Int)
  | _, 0 => some none
  | index, r + 1 =>
    if bitset_get hm.occupied index then
      match hm.values.getD index none with
      | none => none
      | some kv =>
        if kv.1.data.take key.data.length = key.data then some (some kv.2)
        else hash_get_loop hm key step cap ((index + step) % cap) r
    else hash_get_loop hm key step cap ((index + step) % cap) r

/-- hash_get: NULL on an empty table, otherwise probe from
hash_func(key) mod capacity with the stride from the uninitialized
second_hash field — undefined behavior for every map hash_create returns. -/
def hash_get (hm : hashmap) (key : String) : Option (Option Int) :=
  if 0 < bitset_count hm.occupied then
    let index := hm.hash_func key % hash_get_capacity hm
    match hm.second_hash with
    | none => none
    | some h2 => hash_get_loop hm key (h2 key) (hash_get_capacity hm) index (hash_get_capacity hm)
  else some none

/-- A concrete one-character key used in the hashmap theorems. -/
def keyA : String := "a"

/-- The promotion probability one half, written as a normalized rational
literal so that it evaluates. -/
def pHalf : Rat := ⟨1, 2, by decide, Nat.coprime_one_left 2⟩

/-- A chain heap 1 -> 2 -> 3 (each node the right child of the previous one),
the shape the intended BST insertion of 1, 2, 3 would build; used to exercise
the rebalancing walk of AVL_insert directly. -/
def hChain : BHeap :=
  [some ⟨1, none, none, some 1⟩, some ⟨2, some 0, none, some 2⟩, some ⟨3, some 1, none, none⟩]

/-- A five-node search tree: 5 at the root, left subtree 2 with right child 3,
right subtree 8 with left child 7; used for the successor and predecessor
claims. -/
def h8 : BHeap :=
  [some ⟨5, none, some 1, some 2⟩, some ⟨2, some 0, none, some 3⟩,
   some ⟨8, some 0, some 4, none⟩, some ⟨3, some 1, none, none⟩, some ⟨7, some 2, none, none⟩]

/-- The skip-list heap after inserting 10 into a freshly created list with
max_levels = 1 (sentinel at slot 0, the node for 10 at slot 1). -/
def slHeap1 : SHp := [some ⟨0, [some 1], 1⟩, some ⟨10, [none], 1⟩]

/-- The skip-list struct matching slHeap1. -/
def slSt1 : skiplist := ⟨some 0, 1, 4, 1, pHalf⟩

/-- The skip-list heap after additionally inserting 5: the new node at slot 2
was given no forward pointer (the out-of-range snode_set_next call), so the
level-0 chain is sentinel -> 5 and the node for 10 is unreachable. -/
def slHeap2 : SHp :=
  [some ⟨0, [some 2], 1⟩, some ⟨10, [none], 1⟩, some ⟨5, [none], 1⟩]

/-- The skip-list struct matching slHeap2. -/
def slSt2 : skiplist := ⟨some 0, 2, 4, 1, pHalf⟩

/-! ## Helper lemmas -/

/-- The for loop of sl_search never moves: the scan level i starts at
max_levels, which is at or above the level of the node the scan stands on, so
snode_get_next returns NULL at every visited level, and the index only grows
until it wraps around to 0 at SIZE_MOD.  The fuel must cover the remaining
iterations. -/
theorem sl_searchFor_stuck (h : SHp) (x : Int) (fi : Nat) (p : Option Nat) (nd : snode)
    (hp : sheapGet h p = some nd) (hfi : 0 < fi) :
    ∀ fuel i, nd.level ≤ i → i < SIZE_MOD → SIZE_MOD - i < fuel →
      sl_searchFor h x fi fuel p i = some p := by
  intro fuel
  induction fuel with
  | zero =>
    intro i hli hiS hfu
    omega
  | succ fuel ih =>
    intro i hli hiS hfu
    by_cases hi0 : i = 0
    · subst hi0
      simp [sl_searchFor]
    · have hadv : sl_advance h x i fi p = some p := by
        obtain ⟨k, rfl⟩ := Nat.exists_eq_succ_of_ne_zero (Nat.pos_iff_ne_zero.mp hfi)
        simp [sl_advance, snode_get_next, hp, Nat.not_lt.mpr hli]
      rw [sl_searchFor, if_neg hi0, hadv]
      show sl_searchFor h x fi fuel p ((i + 1) % SIZE_MOD) = some p
      by_cases hw : i + 1 < SIZE_MOD
      · rw [Nat.mod_eq_of_lt hw]
        exact ih (i + 1) (by omega) hw (by omega)
      · have hEq : i + 1 = SIZE_MOD := by omega
        rw [hEq, Nat.mod_self]
        have hfuel : 0 < fuel := by omega
        obtain ⟨g, rfl⟩ := Nat.exists_eq_succ_of_ne_zero (Nat.pos_iff_ne_zero.mp hfuel)
        simp [sl_searchFor]

/-- Evaluation of sl_search on slHeap1: the dead for loop stays on the
sentinel, and the level-0 successor is the node holding 10. -/
theorem sl_search_slHeap1 : sl_search slHeap1 slSt1 10 10 = some (some 1) := by
  have hsf : sl_searchFor slHeap1 10 10 SIZE_MOD (some 0) 1 = some (some 0) :=
    sl_searchFor_stuck slHeap1 10 10 (some 0) ⟨0, [some 1], 1⟩ rfl (by decide)
      SIZE_MOD 1 (by decide) (by decide) (by decide)
  have hsent : slSt1.sentinel = some 0 := rfl
  have hml : slSt1.max_levels = 1 := rfl
  unfold sl_search
  rw [hsent, hml, hsf]
  rfl

/-- Evaluation of sl_search on slHeap2: the level-0 chain now starts with the
node holding 5, whose value does not compare equal to 10, so NULL comes back
even though 10 is still allocated in the heap. -/
theorem sl_search_slHeap2 : sl_search slHeap2 slSt2 10 10 = some none := by
  have hsf : sl_searchFor slHeap2 10 10 SIZE_MOD (some 0) 1 = some (some 0) :=
    sl_searchFor_stuck slHeap2 10 10 (some 0) ⟨0, [some 2], 1⟩ rfl (by decide)
      SIZE_MOD 1 (by decide) (by decide) (by decide)
  have hsent : slSt2.sentinel = some 0 := rfl
  have hml : slSt2.max_levels = 1 := rfl
  unfold sl_search
  rw [hsent, hml, hsf]
  rfl

/-! ## Claim theorems -/

/-- Claim C1: the claim says BST_search of a stored value returns a non-null
node comparing equal and BST_contains returns true.  The code refutes it: the
inner declaration of n in BST_search shadows the result variable, so the
search result is discarded and NULL is always returned.  On the one-node tree
holding 5, the value 5 is stored (the descent loop finds it at slot 0), yet
BST_search returns NULL and BST_contains returns false. -/
theorem C1_bst_search_always_null :
    BST_insert 10 [] ⟨none, 4⟩ 5 = some ([some ⟨5, none, none, none⟩], ⟨some 0, 4⟩, some 0)
  ∧ binarynode_get_value [some ⟨5, none, none, none⟩] (some 0) = some 5
  ∧ BST_search_loop [some ⟨5, none, none, none⟩] 5 10 (some 0) = some (some 0)
  ∧ BST_search 10 [some ⟨5, none, none, none⟩] ⟨some 0, 4⟩ 5 = some none
  ∧ BST_contains 10 [some ⟨5, none, none, none⟩] ⟨some 0, 4⟩ 5 = some false := by
  decide

/-- Claim C2: the claim says every insert and remove sequence from the empty
AVL tree keeps every node balanced.  The code refutes it: the first insert
succeeds, but the second insert reaches the statement of BST_insert that
branches on compare(x, binarynode_get_value(tmp)) with tmp the NULL pointer
the descent ended on, so the integer comparator dereferences NULL (undefined
behavior, modelled by none): no sequence with two inserts even completes. -/
theorem C2_avl_second_insert_ub :
    AVL_create 4 = some ⟨⟨none, 4⟩⟩
  ∧ AVL_insertSeq 10 (some ([], ⟨⟨none, 4⟩⟩)) [1] =
      some ([some ⟨1, none, none, none⟩], ⟨⟨some 0, 4⟩⟩)
  ∧ AVL_insertSeq 10 (some ([], ⟨⟨none, 4⟩⟩)) [1, 2] = none := by
  decide

/-- Claim C3: the claim says sl_contains(x) stays true after sl_insert(x)
until a matching remove, whatever else is inserted.  The code refutes it:
sl_insert wires the new node with snode_set_next(node, next, node_level),
whose level argument is out of range for a node of node_level levels, so the
write is silently dropped and the new node keeps NULL forward pointers.
After inserting 10 and then 5 into a max_levels = 1 list, the level-0 chain
is truncated at 5 and sl_contains 10 is false although 10 was never
removed. -/
theorem C3_skiplist_insert_breaks_contains :
    sl_create [] 4 1 (pHalf) = some ([some ⟨0, [none], 1⟩], ⟨some 0, 0, 4, 1, pHalf⟩)
  ∧ sl_insert [some ⟨0, [none], 1⟩] ⟨some 0, 0, 4, 1, pHalf⟩ 10 [false] 10 =
      some (slHeap1, slSt1)
  ∧ sl_contains slHeap1 slSt1 10 10 = some true
  ∧ sl_insert slHeap1 slSt1 5 [false] 10 = some (slHeap2, slSt2)
  ∧ sl_contains slHeap2 slSt2 10 10 = some false := by
  refine ⟨by decide, by decide, ?_, by decide, ?_⟩
  · unfold sl_contains
    rw [sl_search_slHeap1]
    rfl
  · unfold sl_contains
    rw [sl_search_slHeap2]
    rfl

/-- Claim C4: the claim says hash_put then hash_get returns the stored value,
robust to colliding keys.  The code refutes it before any probing: hash_create
never assigns the second_hash field (it assigns hash_func twice instead), and
hash_set_second_function also writes hash_func, so the very first hash_put
calls an uninitialized function pointer: undefined behavior (none). -/
theorem C4_hashmap_put_uninitialized_second_hash :
    (hash_create 8 4).isSome = true
  ∧ (hash_create 8 4).map (fun hm => hm.second_hash.isNone) = some true
  ∧ (hash_create 8 4).map
      (fun hm => (hash_set_second_function hm hash_util_default_hash).second_hash.isNone) = some true
  ∧ (hash_create 8 4).bind (fun hm => hash_put hm keyA 1) = none
  ∧ (hash_create 8 4).bind (fun hm => hash_get hm keyA) = some none := by
  refine ⟨rfl, rfl, rfl, rfl, rfl⟩

/-- Claim C5: the claim says maps from hash_create use the djb2 hash as the
primary hash and a probe stride that is never 0 modulo capacity.  The code
refutes both parts: hash_create assigns hash_func twice, so the primary hash
is hash_util_default_second_hash, whose body ends in return 0 and therefore
sends every key to slot 0, while djb2 of the key a modulo 8 is 6; and the
second_hash field that would supply the stride is never initialized at all. -/
theorem C5_hashmap_primary_hash_overwritten :
    (hash_create 8 4).map (fun hm => hm.hash_func keyA) = some 0
  ∧ hash_util_default_hash keyA % 8 = 6
  ∧ (∀ key : String, hash_util_default_second_hash key = 0)
  ∧ (hash_create 8 4).map (fun hm => hm.second_hash.isNone) = some true := by
  refine ⟨rfl, by decide, fun key => rfl, rfl⟩

/-- Claim C6: the claim says inserting 5, 3, 8, 1, 4 yields in-order
1, 3, 4, 5, 8 and removing 3 yields 1, 4, 5, 8.  The code refutes it at the
second insert: BST_insert of 3 into the tree holding 5 descends to the NULL
tmp and then evaluates compare(x, binarynode_get_value(tmp)), passing NULL to
the integer comparator: undefined behavior, so the scenario never reaches the
traversal or the removal. -/
theorem C6_bst_scenario_insert_crashes :
    BST_create 4 = some ⟨none, 4⟩
  ∧ BST_insertSeq 10 (some ([], ⟨none, 4⟩)) [5] =
      some ([some ⟨5, none, none, none⟩], ⟨some 0, 4⟩)
  ∧ BST_insertSeq 10 (some ([], ⟨none, 4⟩)) [5, 3] = none
  ∧ BST_insertSeq 10 (some ([], ⟨none, 4⟩)) [5, 3, 8, 1, 4] = none := by
  decide

/-- Claim C7: the claim says inserting 1, 2, 3 triggers a left rotation
producing a reattached tree with root 2 and height 2.  The code refutes it
twice over: the insert of 2 already passes NULL to the comparator inside
BST_insert (undefined behavior), and even on the chain heap the intended
inserts would build, the rebalancing walk of AVL_insert performs the left
rotation at node 1 but discards the returned subtree root — afterwards the
old root (value 1) has the rotation result as its father and the tree hanging
from the never-updated root pointer has height 1, not the claimed reattached
root 2 of height 2. -/
theorem C7_avl_rotation_never_reattached :
    AVL_insertSeq 10 (some ([], ⟨⟨none, 4⟩⟩)) [1, 2, 3] = none
  ∧ AVL_rebalance hChain 3 10 (some 1) =
      some [some ⟨1, some 1, none, none⟩, some ⟨2, none, some 0, some 2⟩,
            some ⟨3, some 1, none, none⟩]
  ∧ (AVL_rebalance hChain 3 10 (some 1)).map (fun h => binarynode_get_father h (some 0)) =
      some (some 1)
  ∧ (AVL_rebalance hChain 3 10 (some 1)).map (fun h => binarynode_get_height h 10 (some 0)) =
      some (some 1) := by
  decide

/-- Claim C8: the claim says BST_successor with a right child present returns
the leftmost node of the right subtree (and BST_predecessor the rightmost of
the left subtree).  The code refutes it: the spine loop advances bn instead
of tmp, so the plain right (resp. left) child comes back.  On the tree with
root 5, left subtree 2 with right child 3, right subtree 8 with left child 7:
the successor of the root is reported as the node holding 8, which still has
a left child, while the leftmost node of the right subtree holds 7; the
predecessor is reported as the node holding 2 while the rightmost node of the
left subtree holds 3. -/
theorem C8_successor_returns_right_child :
    BST_successor 10 h8 ⟨some 0, 4⟩ (some 0) = some (some 2)
  ∧ binarynode_get_value h8 (some 2) = some 8
  ∧ binarynode_get_left_child h8 (some 2) = some 4
  ∧ minLoop h8 10 (some 2) = some (some 4)
  ∧ binarynode_get_value h8 (some 4) = some 7
  ∧ BST_predecessor 10 h8 ⟨some 0, 4⟩ (some 0) = some (some 1)
  ∧ binarynode_get_value h8 (some 1) = some 2
  ∧ maxLoop h8 10 (some 1) = some (some 3)
  ∧ binarynode_get_value h8 (some 3) = some 3 := by
  decide

/-- Claim C9: the claim says sl_remove of an absent value is a safe no-op and
sl_get_size is unchanged.  The code refutes the size part: the heap and the
links are indeed untouched, but element_count is decremented unconditionally,
so removing 5 from the one-element list holding 10 drops the reported size
from 1 to 0. -/
theorem C9_skiplist_remove_miss_changes_size :
    sl_remove slHeap1 slSt1 5 10 = some (slHeap1, ⟨some 0, 0, 4, 1, pHalf⟩)
  ∧ sl_get_size slSt1 = 1 := by
  exact ⟨rfl, rfl⟩

/-- Claim C10: on every non-null empty BST (root NULL), BST_min and BST_max
walk zero steps, read binarynode_get_value(NULL) and return NULL without
failing, exactly as claimed. -/
theorem C10_min_max_empty_null (fuel : Nat) (h : BHeap) (bst : BST)
    (hf : 0 < fuel) (hroot : bst.root = none) :
    BST_min fuel h bst = some none ∧ BST_max fuel h bst = some none := by
  obtain ⟨f, rfl⟩ := Nat.exists_eq_succ_of_ne_zero (Nat.pos_iff_ne_zero.mp hf)
  constructor <;>
    simp [BST_min, BST_max, minLoop, maxLoop, hroot, binarynode_get_left_child,
      binarynode_get_right_child, heapGet, binarynode_get_value]

/-- Witness for C10 at the concrete empty tree with element size 4. -/
theorem C10_min_max_empty_null_witness :
    BST_min 1 [] ⟨none, 4⟩ = some none ∧ BST_max 1 [] ⟨none, 4⟩ = some none :=
  C10_min_max_empty_null 1 [] ⟨none, 4⟩ (by decide) rfl

end CDS
